import Mathlib

/-!
Verification development for the nuclear-aesthetic prompt-enhancement engine
(`nuclear_aesthetic_mcp.py`).

The Python module is a deterministic lookup-and-compose engine over five
static attribute tables.  This file gives a shallow embedding of its core:

* Python dicts with string keys become association lists (`PyDict`),
  preserving insertion order, with `alistFind` playing the role of
  `dict.get`;
* the five `str`-backed enums become Lean inductives carrying their
  `.value` strings;
* the composer `build_enhancement_output` / `enhance_nuclear_aesthetic`,
  the matcher `match_description_to_phaseform`, and the lookup tools
  `list_phase_forms` / `get_phase_form_details` become executable Lean
  functions translated line by line from the source;
* Python string operations that the embedding needs (`lower`, substring
  containment via `in`, `startswith`) are modelled on the character lists
  underlying Lean strings (`lowerChars`, `hasSub`, `pfxOf`), matching
  Python's ASCII behaviour on the table data;
* Python's stable `list.sort(key=..., reverse=True)` is modelled by
  `List.insertionSort` with the reversed comparison, which is the stable
  descending sort.

Theorems about the embedded functions then settle the specification's
claims about key presence, phrase ordering, scoring, ranking stability,
truncation, filtering, and table invariants.
-/

/-- A Python value as it occurs in the module's attribute tables:
a string, a pair of integers (the `color_temperature_k` tuples), or `None`. -/
inductive PyVal where
  | vstr : String → PyVal
  | vpair : Nat → Nat → PyVal
  | vnone : PyVal
deriving DecidableEq

/-- A Python dict with string keys, as an insertion-ordered association list. -/
abbrev PyDict := List (String × PyVal)

/-- Python's `d.get(k)` on a dict: the value at the first matching key, if any. -/
def alistFind {α : Type} (d : List (String × α)) (k : String) : Option α :=
  (d.find? (fun p => p.1 == k)).map Prod.snd

/-- Python's `d.get(k, default)` on a dict. -/
def alistGetD {α : Type} (d : List (String × α)) (k : String) (dflt : α) : α :=
  (alistFind d k).getD dflt

/-- Lower-case an ASCII character, as Python's `str.lower` does on ASCII. -/
def lowerChar (c : Char) : Char :=
  if 65 ≤ c.toNat ∧ c.toNat ≤ 90 then Char.ofNat (c.toNat + 32) else c

/-- Lower-case a character list (the model of Python's `str.lower`). -/
def lowerChars (l : List Char) : List Char := l.map lowerChar

/-- Boolean prefix test on character lists (the model of `str.startswith`). -/
def pfxOf : List Char → List Char → Bool
  | [], _ => true
  | _ :: _, [] => false
  | a :: as, b :: bs => a == b && pfxOf as bs

/-- Boolean substring-containment test on character lists
(the model of Python's `needle in haystack` on strings). -/
def hasSub : List Char → List Char → Bool
  | needle, [] => needle.isEmpty
  | needle, h :: t => pfxOf needle (h :: t) || hasSub needle t

/-- How Python renders a value inside an f-string: a string renders as
itself, `None` renders as `"None"`, a pair as `"(a, b)"`. -/
def fmtPy : Option PyVal → String
  | some (PyVal.vstr s) => s
  | some (PyVal.vpair a b) => "(" ++ toString a ++ ", " ++ toString b ++ ")"
  | some PyVal.vnone => "None"
  | none => "None"

/-- Python truthiness of a dict: nonempty. -/
def pyTruthy (d : PyDict) : Bool := !d.isEmpty

/-- Python truthiness of an `Optional[Dict]`: not `None` and nonempty. -/
def pyTruthyOpt : Option PyDict → Bool
  | none => false
  | some d => !d.isEmpty

/-- The `PhaseForm` enum: 14 temporal-morphological phase identifiers,
in source declaration order. -/
inductive PhaseForm where
  | initiation_radiant_point
  | initiation_thermal_bloom
  | fireball_plasma_core
  | fireball_surface_instability
  | fireball_expansion_front
  | shock_compression_disc
  | shock_mach_stem
  | shock_wilson_cloud
  | rise_vortex_stem
  | rise_toroidal_roll
  | rise_cauliflower_cap
  | dispersal_column_collapse
  | dispersal_anvil_spread
  | dispersal_fallout_plume
deriving DecidableEq

/-- The `.value` string of each `PhaseForm` member. -/
def PhaseForm.value : PhaseForm → String
  | initiation_radiant_point => "initiation.radiant_point"
  | initiation_thermal_bloom => "initiation.thermal_bloom"
  | fireball_plasma_core => "fireball.plasma_core"
  | fireball_surface_instability => "fireball.surface_instability"
  | fireball_expansion_front => "fireball.expansion_front"
  | shock_compression_disc => "shock.compression_disc"
  | shock_mach_stem => "shock.mach_stem"
  | shock_wilson_cloud => "shock.wilson_cloud"
  | rise_vortex_stem => "rise.vortex_stem"
  | rise_toroidal_roll => "rise.toroidal_roll"
  | rise_cauliflower_cap => "rise.cauliflower_cap"
  | dispersal_column_collapse => "dispersal.column_collapse"
  | dispersal_anvil_spread => "dispersal.anvil_spread"
  | dispersal_fallout_plume => "dispersal.fallout_plume"

/-- All `PhaseForm` members in declaration order (Python enum iteration order). -/
def phaseFormList : List PhaseForm :=
  [.initiation_radiant_point, .initiation_thermal_bloom,
   .fireball_plasma_core, .fireball_surface_instability, .fireball_expansion_front,
   .shock_compression_disc, .shock_mach_stem, .shock_wilson_cloud,
   .rise_vortex_stem, .rise_toroidal_roll, .rise_cauliflower_cap,
   .dispersal_column_collapse, .dispersal_anvil_spread, .dispersal_fallout_plume]

/-- The `Scale` enum. -/
inductive Scale where
  | tactical
  | strategic
  | thermonuclear
deriving DecidableEq

/-- The `.value` string of each `Scale` member. -/
def Scale.value : Scale → String
  | tactical => "tactical"
  | strategic => "strategic"
  | thermonuclear => "thermonuclear"

/-- The `Environment` enum. -/
inductive Environment where
  | surface
  | airburst
  | underwater
  | space
  | underground
deriving DecidableEq

/-- The `.value` string of each `Environment` member. -/
def Environment.value : Environment → String
  | surface => "surface"
  | airburst => "airburst"
  | underwater => "underwater"
  | space => "space"
  | underground => "underground"

/-- The `Era` enum. -/
inductive Era where
  | trinity
  | pacific
  | nevada
  | modern
deriving DecidableEq

/-- The `.value` string of each `Era` member. -/
def Era.value : Era → String
  | trinity => "trinity"
  | pacific => "pacific"
  | nevada => "nevada"
  | modern => "modern"

/-- The `Affect` enum. -/
inductive Affect where
  | sublime
  | terrible
  | clinical
  | melancholic
  | anxious
  | sacred_profane
deriving DecidableEq

/-- The `.value` string of each `Affect` member. -/
def Affect.value : Affect → String
  | sublime => "sublime"
  | terrible => "terrible"
  | clinical => "clinical"
  | melancholic => "melancholic"
  | anxious => "anxious"
  | sacred_profane => "sacred_profane"

/-- The `PHASEFORM_INTRINSICS` table, key and entry order as in the source. -/
def PHASEFORM_INTRINSICS : List (String × PyDict) :=
  [("initiation.radiant_point",
    [("luminous_regime", .vstr "thermal_bloom"),
     ("color_temperature_k", .vpair 15000 50000),
     ("luminosity", .vstr "extreme_overexposure"),
     ("form", .vstr "point_source_expanding"),
     ("duration_reference", .vstr "sub-microsecond"),
     ("atmospheric_state", .vstr "pre-interaction"),
     ("key_visual", .vstr "pure white point, corona forming"),
     ("contrast", .vstr "infinite_to_environment")]),
   ("initiation.thermal_bloom",
    [("luminous_regime", .vstr "thermal_bloom"),
     ("color_temperature_k", .vpair 8000 15000),
     ("luminosity", .vstr "total_overexposure"),
     ("form", .vstr "expanding_sphere_undifferentiated"),
     ("duration_reference", .vstr "microseconds"),
     ("atmospheric_state", .vstr "vacuum_formation"),
     ("key_visual", .vstr "white sphere consuming frame, no detail"),
     ("contrast", .vstr "blown_highlights")]),
   ("fireball.plasma_core",
    [("luminous_regime", .vstr "incandescence"),
     ("color_temperature_k", .vpair 5000 8000),
     ("luminosity", .vstr "self_illuminated_bright"),
     ("form", .vstr "sphere_with_internal_structure"),
     ("duration_reference", .vstr "early_milliseconds"),
     ("atmospheric_state", .vstr "plasma_boundary"),
     ("key_visual", .vstr "orange-white sphere, hints of internal convection"),
     ("contrast", .vstr "high_dynamic_range")]),
   ("fireball.surface_instability",
    [("luminous_regime", .vstr "incandescence"),
     ("color_temperature_k", .vpair 4000 6000),
     ("luminosity", .vstr "self_illuminated"),
     ("form", .vstr "sphere_with_surface_perturbations"),
     ("duration_reference", .vstr "milliseconds"),
     ("atmospheric_state", .vstr "plasma_atmosphere_interface"),
     ("key_visual", .vstr "mottled surface, rope tricks, guy-wire vaporization"),
     ("contrast", .vstr "texture_visible")]),
   ("fireball.expansion_front",
    [("luminous_regime", .vstr "incandescence_fading"),
     ("color_temperature_k", .vpair 3000 5000),
     ("luminosity", .vstr "bright_but_structured"),
     ("form", .vstr "sphere_cooling_at_edges"),
     ("duration_reference", .vstr "late_milliseconds"),
     ("atmospheric_state", .vstr "shock_detaching"),
     ("key_visual", .vstr "orange core, darker cooling edges, shock separating"),
     ("contrast", .vstr "medium_high")]),
   ("shock.compression_disc",
    [("luminous_regime", .vstr "reflected_flash"),
     ("color_temperature_k", .vpair 5500 7000),
     ("luminosity", .vstr "medium_reflected"),
     ("form", .vstr "toroidal_compression_wave"),
     ("duration_reference", .vstr "seconds"),
     ("atmospheric_state", .vstr "compression_haze"),
     ("key_visual", .vstr "visible ring of compressed air, refraction effects"),
     ("contrast", .vstr "subtle_atmospheric")]),
   ("shock.mach_stem",
    [("luminous_regime", .vstr "reflected_flash"),
     ("color_temperature_k", .vpair 5000 6000),
     ("luminosity", .vstr "ground_reflection"),
     ("form", .vstr "conical_ground_interaction"),
     ("duration_reference", .vstr "seconds"),
     ("atmospheric_state", .vstr "dust_entrainment"),
     ("key_visual", .vstr "dust skirt rising, ground shock visible, debris curtain"),
     ("contrast", .vstr "environmental")]),
   ("shock.wilson_cloud",
    [("luminous_regime", .vstr "ambient_reflected"),
     ("color_temperature_k", .vpair 5500 6500),
     ("luminosity", .vstr "atmospheric_scatter"),
     ("form", .vstr "condensation_disc_or_dome"),
     ("duration_reference", .vstr "seconds"),
     ("atmospheric_state", .vstr "condensation"),
     ("key_visual", .vstr "white vapor ring/dome, eerie transient cloud"),
     ("contrast", .vstr "soft_ethereal")]),
   ("rise.vortex_stem",
    [("luminous_regime", .vstr "self_illuminated_fading"),
     ("color_temperature_k", .vpair 2500 4000),
     ("luminosity", .vstr "internal_glow"),
     ("form", .vstr "columnar_with_internal_vortices"),
     ("duration_reference", .vstr "tens_of_seconds"),
     ("atmospheric_state", .vstr "particulate_dense"),
     ("key_visual", .vstr "rising column, internal fire visible, debris entrainment"),
     ("contrast", .vstr "dramatic_chiaroscuro")]),
   ("rise.toroidal_roll",
    [("luminous_regime", .vstr "mixed_internal_ambient"),
     ("color_temperature_k", .vpair 2000 3500),
     ("luminosity", .vstr "diminishing_internal"),
     ("form", .vstr "toroidal_vortex_ring"),
     ("duration_reference", .vstr "minute"),
     ("atmospheric_state", .vstr "turbulent_mixing"),
     ("key_visual", .vstr "mushroom cap forming, rolling edges, vortex visible"),
     ("contrast", .vstr "sculptural")]),
   ("rise.cauliflower_cap",
    [("luminous_regime", .vstr "ambient_dominant"),
     ("color_temperature_k", .vpair 5500 6500),
     ("luminosity", .vstr "externally_lit"),
     ("form", .vstr "fractal_turbulent_mass"),
     ("duration_reference", .vstr "minutes"),
     ("atmospheric_state", .vstr "particulate_cloud"),
     ("key_visual", .vstr "baroque complexity, fractal edges, monumental scale"),
     ("contrast", .vstr "cloud_like")]),
   ("dispersal.column_collapse",
    [("luminous_regime", .vstr "ambient"),
     ("color_temperature_k", .vpair 5500 6500),
     ("luminosity", .vstr "daylight"),
     ("form", .vstr "collapsing_vertical_structure"),
     ("duration_reference", .vstr "minutes"),
     ("atmospheric_state", .vstr "settling_particulate"),
     ("key_visual", .vstr "stem losing coherence, material falling back"),
     ("contrast", .vstr "naturalistic")]),
   ("dispersal.anvil_spread",
    [("luminous_regime", .vstr "ambient"),
     ("color_temperature_k", .vpair 5500 7000),
     ("luminosity", .vstr "atmospheric"),
     ("form", .vstr "horizontal_spreading_layer"),
     ("duration_reference", .vstr "tens_of_minutes"),
     ("atmospheric_state", .vstr "stratospheric_injection"),
     ("key_visual", .vstr "cap spreading horizontally, anvil formation"),
     ("contrast", .vstr "high_altitude_clarity")]),
   ("dispersal.fallout_plume",
    [("luminous_regime", .vstr "ambient"),
     ("color_temperature_k", .vpair 5000 6000),
     ("luminosity", .vstr "hazy"),
     ("form", .vstr "drifting_particulate_mass"),
     ("duration_reference", .vstr "hours"),
     ("atmospheric_state", .vstr "dispersed_contamination"),
     ("key_visual", .vstr "smeared across sky, ominous drift, entropic decay"),
     ("contrast", .vstr "low_atmospheric")])]

/-- The `SCALE_MODIFIERS` table, key and entry order as in the source. -/
def SCALE_MODIFIERS : List (String × PyDict) :=
  [("tactical",
    [("evolution_rate", .vstr "fast"),
     ("vertical_development", .vstr "limited"),
     ("proportions", .vstr "compact"),
     ("detail_scale", .vstr "human_reference_visible"),
     ("color_shift", .vnone)]),
   ("strategic",
    [("evolution_rate", .vstr "canonical"),
     ("vertical_development", .vstr "substantial"),
     ("proportions", .vstr "classical_mushroom"),
     ("detail_scale", .vstr "landscape_dwarfing"),
     ("color_shift", .vnone)]),
   ("thermonuclear",
    [("evolution_rate", .vstr "slow_majestic"),
     ("vertical_development", .vstr "extreme"),
     ("proportions", .vstr "towering_multi_stage"),
     ("detail_scale", .vstr "horizon_spanning"),
     ("color_shift", .vstr "secondary_staging_visible")])]

/-- The `ENVIRONMENT_MODIFIERS` table, key and entry order as in the source. -/
def ENVIRONMENT_MODIFIERS : List (String × PyDict) :=
  [("surface",
    [("ground_interaction", .vstr "crater_formation"),
     ("debris_character", .vstr "earth_rock_heavy"),
     ("stem_appearance", .vstr "dirty_debris_laden"),
     ("atmospheric_effect", .vstr "dust_dominant"),
     ("color_influence", .vstr "earth_tones_mixed")]),
   ("airburst",
    [("ground_interaction", .vstr "minimal_delayed"),
     ("debris_character", .vstr "atmospheric_only"),
     ("stem_appearance", .vstr "clean_plasma"),
     ("atmospheric_effect", .vstr "pure_shock_effects"),
     ("color_influence", .vstr "clean_plasma_colors")]),
   ("underwater",
    [("ground_interaction", .vstr "water_column"),
     ("debris_character", .vstr "spray_and_steam"),
     ("stem_appearance", .vstr "wilson_column_dominant"),
     ("atmospheric_effect", .vstr "massive_steam_cauliflower"),
     ("color_influence", .vstr "white_steam_blue_water")]),
   ("space",
    [("ground_interaction", .vstr "none"),
     ("debris_character", .vstr "none"),
     ("stem_appearance", .vstr "pure_plasma_sphere_only"),
     ("atmospheric_effect", .vstr "none_pure_expansion"),
     ("color_influence", .vstr "unfiltered_plasma_spectrum")]),
   ("underground",
    [("ground_interaction", .vstr "contained_venting"),
     ("debris_character", .vstr "subsidence_crater"),
     ("stem_appearance", .vstr "vent_plumes_only"),
     ("atmospheric_effect", .vstr "localized_dust_jets"),
     ("color_influence", .vstr "earth_tones_dominant")])]

/-- The `ERA_MODIFIERS` table, key and entry order as in the source. -/
def ERA_MODIFIERS : List (String × PyDict) :=
  [("trinity",
    [("color_science", .vstr "sepia_monochrome"),
     ("grain_structure", .vstr "heavy_film_grain"),
     ("camera_characteristics", .vstr "static_distant_tripod"),
     ("frame_quality", .vstr "historical_degraded"),
     ("aspect_ratio", .vstr "academic_4x3")]),
   ("pacific",
    [("color_science", .vstr "kodachrome_saturated"),
     ("grain_structure", .vstr "medium_film_grain"),
     ("camera_characteristics", .vstr "naval_observation"),
     ("frame_quality", .vstr "military_documentary"),
     ("aspect_ratio", .vstr "widescreen_naval")]),
   ("nevada",
    [("color_science", .vstr "desert_warm_tones"),
     ("grain_structure", .vstr "newsreel_grain"),
     ("camera_characteristics", .vstr "bunker_observation"),
     ("frame_quality", .vstr "civil_defense_documentary"),
     ("aspect_ratio", .vstr "television_4x3")]),
   ("modern",
    [("color_science", .vstr "digital_clean"),
     ("grain_structure", .vstr "none_or_artificial"),
     ("camera_characteristics", .vstr "impossible_angles"),
     ("frame_quality", .vstr "pristine_cgi"),
     ("aspect_ratio", .vstr "cinematic_wide")])]

/-- The `AFFECT_MODIFIERS` table, key and entry order as in the source. -/
def AFFECT_MODIFIERS : List (String × PyDict) :=
  [("sublime",
    [("framing", .vstr "emphasize_vertical_scale"),
     ("composition", .vstr "human_absence_or_dwarfed"),
     ("lighting_emphasis", .vstr "luminous_extremes"),
     ("emotional_register", .vstr "overwhelming_awe"),
     ("detail_focus", .vstr "totality_over_detail")]),
   ("terrible",
    [("framing", .vstr "destruction_vectors_visible"),
     ("composition", .vstr "before_after_implied"),
     ("lighting_emphasis", .vstr "harsh_revealing"),
     ("emotional_register", .vstr "horror_power"),
     ("detail_focus", .vstr "shock_effects_debris")]),
   ("clinical",
    [("framing", .vstr "documentary_centered"),
     ("composition", .vstr "measurement_reference"),
     ("lighting_emphasis", .vstr "neutral_informative"),
     ("emotional_register", .vstr "detached_scientific"),
     ("detail_focus", .vstr "phase_identification")]),
   ("melancholic",
    [("framing", .vstr "aftermath_emphasis"),
     ("composition", .vstr "entropy_visible"),
     ("lighting_emphasis", .vstr "fading_diffuse"),
     ("emotional_register", .vstr "sorrow_contemplation"),
     ("detail_focus", .vstr "decay_dispersal")]),
   ("anxious",
    [("framing", .vstr "anticipation_moment_before"),
     ("composition", .vstr "tension_building"),
     ("lighting_emphasis", .vstr "pre_flash_stillness"),
     ("emotional_register", .vstr "dread_waiting"),
     ("detail_focus", .vstr "countdown_infrastructure")]),
   ("sacred_profane",
    [("framing", .vstr "altar_like_monumentality"),
     ("composition", .vstr "beauty_horror_tension"),
     ("lighting_emphasis", .vstr "transcendent_terrible"),
     ("emotional_register", .vstr "ambivalent_awe"),
     ("detail_focus", .vstr "simultaneous_beauty_destruction")])]

/-- A JSON-like value, the shape of the composer's nested output. -/
inductive JVal where
  | jstr : String → JVal
  | jnat : Nat → JVal
  | jnull : JVal
  | jobj : List (String × JVal) → JVal

/-- Embed a table value into the JSON-like output type. -/
def pyToJ : PyVal → JVal
  | .vstr s => .jstr s
  | .vpair a b => .jobj [("0", .jnat a), ("1", .jnat b)]
  | .vnone => .jnull

/-- Embed an optional table value (`dict.get` result) into the output type;
Python's `json` renders an absent value stored via `get` as `null`. -/
def optToJ : Option PyVal → JVal
  | some v => pyToJ v
  | none => .jnull

/-- Embed a whole table record into the output type. -/
def dictToJ (d : PyDict) : List (String × JVal) :=
  d.map (fun p => (p.1, pyToJ p.2))

/-- The composer's result: the six top-level keys of the dict returned by
`build_enhancement_output`, which are always present and in this order.
The two inner dicts whose key sets vary (`visual_parameters` and
`modifiers_applied`) stay association lists. -/
structure EnhancementOutput where
  original_prompt : String
  phase_form : String
  enhanced_prompt_elements : List String
  visual_parameters : List (String × JVal)
  modifiers_applied : List (String × JVal)
  synthesized_prompt : String

/-- Evaluates `intrinsics.get("color_temperature_k", (5500, 6500))`, then indexes
the pair (only pair values occur at this key in the table). -/
def tempRangeOf (intrinsics : PyDict) : Nat × Nat :=
  match alistFind intrinsics "color_temperature_k" with
  | some (.vpair a b) => (a, b)
  | _ => (5500, 6500)

/-- The three phrases contributed by the primary record
(`elements` initial literal in `build_enhancement_output`). -/
def primary_elements (intrinsics : PyDict) : List String :=
  ["nuclear explosion, " ++ fmtPy (alistFind intrinsics "key_visual"),
   fmtPy (alistFind intrinsics "luminosity") ++ " lighting",
   fmtPy (alistFind intrinsics "form") ++ " morphology"]

/-- The scale descriptors appended under `if scale_mods:`. -/
def scale_elements (scale_mods : PyDict) : List String :=
  if pyTruthy scale_mods then
    [fmtPy (alistFind scale_mods "vertical_development") ++ " vertical development",
     fmtPy (alistFind scale_mods "detail_scale") ++ " scale"]
  else []

/-- The test `env_mods.get("debris_character") != "none"`. -/
def debrisNotNone (env_mods : PyDict) : Bool :=
  match alistFind env_mods "debris_character" with
  | some (.vstr s) => s != "none"
  | _ => true

/-- The environment descriptors appended under `if env_mods:`:
the debris phrase only when `debris_character` is not `"none"`,
then the atmosphere phrase. -/
def env_elements (env_mods : PyDict) : List String :=
  if pyTruthy env_mods then
    (if debrisNotNone env_mods then
      [fmtPy (alistFind env_mods "debris_character") ++ " debris"]
     else []) ++
    [fmtPy (alistFind env_mods "atmospheric_effect") ++ " atmosphere"]
  else []

/-- The era descriptors appended under `if era_mods:`. -/
def era_elements (era_mods : Option PyDict) : List String :=
  if pyTruthyOpt era_mods then
    let em := era_mods.getD []
    [fmtPy (alistFind em "color_science") ++ " color",
     fmtPy (alistFind em "grain_structure"),
     fmtPy (alistFind em "camera_characteristics") ++ " perspective"]
  else []

/-- The affect descriptors appended under `if affect_mods:`. -/
def affect_elements (affect_mods : Option PyDict) : List String :=
  if pyTruthyOpt affect_mods then
    let am := affect_mods.getD []
    [fmtPy (alistFind am "framing"),
     fmtPy (alistFind am "emotional_register") ++ " mood"]
  else []

/-- Model of `build_enhancement_output`: assembles the complete enhancement output.
Faithful to the source: the four mandatory facets come from the primary
record; the `capture` facet and the `era` modifier key are added only
under `if era_mods:`, the `composition` facet and the `affect` key only
under `if affect_mods:`; the phrase list is primary, then scale, then
environment, then era, then affect descriptors; the synthesized prompt
joins the prompt with the first 6 phrases. -/
def build_enhancement_output (prompt : String) (phase_form : String)
    (intrinsics : PyDict) (scale_mods : PyDict) (env_mods : PyDict)
    (era_mods : Option PyDict) (affect_mods : Option PyDict) :
    EnhancementOutput :=
  let temp_range := tempRangeOf intrinsics
  let elements :=
    primary_elements intrinsics ++ scale_elements scale_mods ++
    env_elements env_mods ++ era_elements era_mods ++ affect_elements affect_mods
  { original_prompt := prompt
    phase_form := phase_form
    enhanced_prompt_elements := elements
    visual_parameters :=
      [("luminous", .jobj
         [("regime", optToJ (alistFind intrinsics "luminous_regime")),
          ("color_temperature_k", .jobj
            [("min", .jnat temp_range.1), ("max", .jnat temp_range.2)]),
          ("luminosity", optToJ (alistFind intrinsics "luminosity")),
          ("contrast", optToJ (alistFind intrinsics "contrast"))]),
       ("morphological", .jobj
         [("form", optToJ (alistFind intrinsics "form")),
          ("key_visual", optToJ (alistFind intrinsics "key_visual"))]),
       ("atmospheric", .jobj
         [("state", optToJ (alistFind intrinsics "atmospheric_state"))]),
       ("temporal", .jobj
         [("duration_reference", optToJ (alistFind intrinsics "duration_reference"))])] ++
      (if pyTruthyOpt era_mods then
        [("capture", .jobj
           [("color_science", optToJ (alistFind (era_mods.getD []) "color_science")),
            ("grain", optToJ (alistFind (era_mods.getD []) "grain_structure")),
            ("camera", optToJ (alistFind (era_mods.getD []) "camera_characteristics"))])]
       else []) ++
      (if pyTruthyOpt affect_mods then
        [("composition", .jobj
           [("framing", optToJ (alistFind (affect_mods.getD []) "framing")),
            ("emotional_register", optToJ (alistFind (affect_mods.getD []) "emotional_register")),
            ("detail_focus", optToJ (alistFind (affect_mods.getD []) "detail_focus"))])]
       else [])
    modifiers_applied :=
      [("scale", .jobj (dictToJ scale_mods)),
       ("environment", .jobj (dictToJ env_mods))] ++
      (if pyTruthyOpt era_mods then [("era", .jobj (dictToJ (era_mods.getD [])))] else []) ++
      (if pyTruthyOpt affect_mods then [("affect", .jobj (dictToJ (affect_mods.getD [])))] else [])
    synthesized_prompt :=
      prompt ++ ", " ++ String.intercalate ", " (elements.take 6) }

/-- The intrinsics record resolved for a phase form:
`PHASEFORM_INTRINSICS.get(phase_key, {})`. -/
def intrOf (pf : PhaseForm) : PyDict :=
  alistGetD PHASEFORM_INTRINSICS pf.value []

/-- The scale record resolved from an optional scale:
`SCALE_MODIFIERS.get(params.scale.value if params.scale else "strategic", {})`. -/
def smOf (scale : Option Scale) : PyDict :=
  alistGetD SCALE_MODIFIERS (match scale with | some s => s.value | none => "strategic") []

/-- The environment record resolved from an optional environment:
`ENVIRONMENT_MODIFIERS.get(... if params.environment else "airburst", {})`. -/
def emOf (environment : Option Environment) : PyDict :=
  alistGetD ENVIRONMENT_MODIFIERS
    (match environment with | some e => e.value | none => "airburst") []

/-- The era record resolved from an optional era:
`ERA_MODIFIERS.get(params.era.value) if params.era else None`. -/
def eraOf (era : Option Era) : Option PyDict :=
  match era with
  | some e => alistFind ERA_MODIFIERS e.value
  | none => none

/-- The affect record resolved from an optional affect:
`AFFECT_MODIFIERS.get(params.affect.value) if params.affect else None`. -/
def affOf (affect : Option Affect) : Option PyDict :=
  match affect with
  | some a => alistFind AFFECT_MODIFIERS a.value
  | none => none

/-- The `enhance_nuclear_aesthetic` tool body (the structure that the tool
then serializes as JSON).  The pydantic input model fills in defaults, so an
omitted `scale` arrives as `some .strategic`, an omitted `environment` as
`some .airburst`, and omitted `era`/`affect` as `none`; an explicit JSON
`null` arrives as `none` for any of the four. -/
def enhance_nuclear_aesthetic (prompt : String) (phase_form : PhaseForm)
    (scale : Option Scale) (environment : Option Environment)
    (era : Option Era) (affect : Option Affect) : EnhancementOutput :=
  build_enhancement_output prompt phase_form.value (intrOf phase_form)
    (smOf scale) (emOf environment) (eraOf era) (affOf affect)

/-- One entry of the matcher's result list. -/
structure MatchCandidate where
  phase_form : String
  confidence_score : Nat
  matched_terms : List String
  key_visual : String
deriving DecidableEq

/-- The `keyword_mappings` table of `match_description_to_phaseform`:
for each phase form, its keywords and its phrases, in declaration order. -/
def keyword_mappings : List (String × List String × List String) :=
  [("initiation.radiant_point",
    ["point", "first light", "initial", "origin", "birth", "beginning"],
    ["moment of detonation", "first instant", "point source"]),
   ("initiation.thermal_bloom",
    ["white", "bloom", "overexposed", "blind", "flash", "brilliant"],
    ["everything goes white", "pure light", "thermal flash", "blinding"]),
   ("fireball.plasma_core",
    ["plasma", "core", "sphere", "orange", "hot", "glowing"],
    ["ball of fire", "plasma sphere", "incandescent"]),
   ("fireball.surface_instability",
    ["mottled", "surface", "texture", "rope", "instability", "perturbation"],
    ["rope tricks", "surface detail", "mottling"]),
   ("fireball.expansion_front",
    ["expanding", "growing", "cooling", "edge", "front"],
    ["shock separating", "expansion", "cooling edges"]),
   ("shock.compression_disc",
    ["ring", "disc", "compression", "wave", "shockwave"],
    ["compression wave", "visible ring", "shock ring"]),
   ("shock.mach_stem",
    ["ground", "dust", "debris", "stem", "skirt", "dirt"],
    ["dust skirt", "ground interaction", "debris curtain", "mach stem"]),
   ("shock.wilson_cloud",
    ["cloud", "vapor", "condensation", "wilson", "dome", "eerie"],
    ["wilson cloud", "vapor ring", "condensation", "eerie ring"]),
   ("rise.vortex_stem",
    ["stem", "column", "rising", "vortex", "pillar"],
    ["rising column", "stem forming", "vortex stem"]),
   ("rise.toroidal_roll",
    ["toroid", "roll", "mushroom", "cap", "rolling"],
    ["mushroom forming", "rolling edges", "toroidal"]),
   ("rise.cauliflower_cap",
    ["cauliflower", "baroque", "fractal", "turbulent", "complex", "iconic"],
    ["mushroom cloud", "iconic shape", "fractal edges", "baroque complexity"]),
   ("dispersal.column_collapse",
    ["collapse", "falling", "settling", "decay"],
    ["column collapse", "falling back", "losing coherence"]),
   ("dispersal.anvil_spread",
    ["anvil", "spread", "horizontal", "stratosphere"],
    ["spreading out", "anvil cloud", "horizontal spread"]),
   ("dispersal.fallout_plume",
    ["fallout", "drift", "smear", "aftermath", "contamination", "ominous"],
    ["drifting", "fallout", "aftermath", "entropic"])]

/-- Reads `PHASEFORM_INTRINSICS[phase_form]["key_visual"]` as the matcher does
(present for every phase form that occurs in `keyword_mappings`). -/
def keyVisualOf (phase_form : String) : String :=
  fmtPy (alistFind (alistGetD PHASEFORM_INTRINSICS phase_form []) "key_visual")

/-- One iteration of the matcher's scoring loop over `description_lower`
(here a character list): keywords found as substrings count 1 each,
phrases count 3 each, and the matched terms are recorded in test order
(keywords before phrases, each in table-declaration order). -/
def scoreEntry (dl : List Char) (entry : String × List String × List String) :
    MatchCandidate :=
  let mk := entry.2.1.filter (fun k => hasSub k.data dl)
  let mp := entry.2.2.filter (fun p => hasSub p.data dl)
  { phase_form := entry.1
    confidence_score := mk.length + 3 * mp.length
    matched_terms := mk ++ mp
    key_visual := keyVisualOf entry.1 }

/-- The matcher's `matches` list before sorting: one candidate per
table entry with positive score, in table-declaration order. -/
def scored_matches (dl : List Char) : List MatchCandidate :=
  (keyword_mappings.map (scoreEntry dl)).filter
    (fun c => 0 < c.confidence_score)

/-- The ordering used by `matches.sort(key=lambda x: x["confidence_score"],
reverse=True)`: descending confidence score. -/
def rDesc (a b : MatchCandidate) : Prop :=
  b.confidence_score ≤ a.confidence_score

instance : DecidableRel rDesc :=
  fun a b => Nat.decLe b.confidence_score a.confidence_score

instance : IsTotal MatchCandidate rDesc :=
  ⟨fun a b => Nat.le_total b.confidence_score a.confidence_score⟩

instance : IsTrans MatchCandidate rDesc :=
  ⟨fun _ _ _ hab hbc => Nat.le_trans hbc hab⟩

/-- Model of `match_description_to_phaseform`: lower-cases the description, scores
each category, keep positive scores, sort stably by score descending
(Python's `list.sort` is stable and `reverse=True` keeps equal elements
in their original order), and return the top 5. -/
def match_description_to_phaseform (description : String) : List MatchCandidate :=
  (List.insertionSort rDesc (scored_matches (lowerChars description.data))).take 5

/-- One entry of the `list_phase_forms` result, with the record fields
read via `intrinsics.get(key, "")`. -/
structure PhaseFormListing where
  phase_form : String
  key_visual : PyVal
  duration_reference : PyVal
  luminous_regime : PyVal
deriving DecidableEq

/-- The loop filter of `list_phase_forms`: skip a phase key unless the
filter is falsy (absent or empty) or the key starts with the lower-cased
filter. -/
def keepPhaseKey (filt : Option String) (key : String) : Bool :=
  match filt with
  | none => true
  | some f => if f.data.isEmpty then true else pfxOf (lowerChars f.data) key.data

/-- The `list_phase_forms` loop over an explicit list of phase forms. -/
def listPhaseFormsOver (l : List PhaseForm) (filt : Option String) :
    List PhaseFormListing :=
  l.filterMap (fun pf =>
    let phase_key := pf.value
    if keepPhaseKey filt phase_key then
      let intrinsics := alistGetD PHASEFORM_INTRINSICS phase_key []
      some { phase_form := phase_key
             key_visual := alistGetD intrinsics "key_visual" (.vstr "")
             duration_reference := alistGetD intrinsics "duration_reference" (.vstr "")
             luminous_regime := alistGetD intrinsics "luminous_regime" (.vstr "") }
    else none)

/-- The `list_phase_forms` tool body: iterate every `PhaseForm` member in
declaration order, apply the filter, and collect the summary records. -/
def list_phase_forms (filt : Option String) : List PhaseFormListing :=
  listPhaseFormsOver phaseFormList filt

/-- The `get_phase_form_details` tool body. -/
structure PhaseFormDetails where
  phase_form : String
  intrinsic_properties : PyDict
  scales : List String
  environments : List String
  eras : List String
  affects : List String
deriving DecidableEq

/-- Model of `get_phase_form_details`: resolves the intrinsics record (empty-dict
default) and list every modifier dimension's valid identifiers. -/
def get_phase_form_details (pf : PhaseForm) : PhaseFormDetails :=
  { phase_form := pf.value
    intrinsic_properties := alistGetD PHASEFORM_INTRINSICS pf.value []
    scales := [Scale.tactical, Scale.strategic, Scale.thermonuclear].map Scale.value
    environments := [Environment.surface, Environment.airburst, Environment.underwater,
                     Environment.space, Environment.underground].map Environment.value
    eras := [Era.trinity, Era.pacific, Era.nevada, Era.modern].map Era.value
    affects := [Affect.sublime, Affect.terrible, Affect.clinical,
                Affect.melancholic, Affect.anxious, Affect.sacred_profane].map Affect.value }

/-- The composed phrase list is literally the five groups appended in order. -/
theorem enhanced_elements_eq (prompt : String) (pf : PhaseForm) (s : Option Scale)
    (e : Option Environment) (er : Option Era) (af : Option Affect) :
    (enhance_nuclear_aesthetic prompt pf s e er af).enhanced_prompt_elements
      = primary_elements (intrOf pf) ++ scale_elements (smOf s) ++ env_elements (emOf e)
        ++ era_elements (eraOf er) ++ affect_elements (affOf af) := rfl

/-- Every resolvable scale record yields exactly 2 scale phrases. -/
theorem scale_elements_len (s : Option Scale) :
    (scale_elements (smOf s)).length = 2 := by
  rcases s with - | v
  · decide
  · cases v <;> decide

/-- Every resolvable environment record yields 2 phrases when its
debris character is not the literal `"none"`, and 1 phrase otherwise. -/
theorem env_elements_len (e : Option Environment) :
    (env_elements (emOf e)).length
      = (if debrisNotNone (emOf e) then 2 else 1) := by
  rcases e with - | v
  · decide
  · cases v <;> decide

/-- Every resolvable environment record yields at least one phrase. -/
theorem env_elements_pos (e : Option Environment) :
    1 ≤ (env_elements (emOf e)).length := by
  rcases e with - | v
  · decide
  · cases v <;> decide

/-- A requested era yields exactly 3 era phrases. -/
theorem era_elements_len_some (er : Era) :
    (era_elements (eraOf (some er))).length = 3 := by
  cases er <;> decide

/-- A requested affect yields exactly 2 affect phrases. -/
theorem affect_elements_len_some (af : Affect) :
    (affect_elements (affOf (some af))).length = 2 := by
  cases af <;> decide

/-- Era phrase count over an optional era: 3 when given, 0 when absent. -/
theorem era_elements_len (er : Option Era) :
    (era_elements (eraOf er)).length
      = (match er with | some _ => 3 | none => 0) := by
  rcases er with - | v
  · rfl
  · exact era_elements_len_some v

/-- Affect phrase count over an optional affect: 2 when given, 0 when absent. -/
theorem affect_elements_len (af : Option Affect) :
    (affect_elements (affOf af)).length
      = (match af with | some _ => 2 | none => 0) := by
  rcases af with - | v
  · rfl
  · exact affect_elements_len_some v

/-- C1: the presence of the optional output keys is fully determined by the
optional inputs.  With era and affect omitted the output has no `capture` or
`composition` facet keys and no `era`/`affect` keys under `modifiers_applied`;
with era `modern` and affect `clinical` the facet keys are exactly
luminous, morphological, atmospheric, temporal, capture, composition, and
`modifiers_applied` holds exactly the keys scale, environment, era, affect. -/
theorem composeAesthetic_optional_keys (prompt : String) (pf : PhaseForm)
    (s : Option Scale) (e : Option Environment) :
    ((enhance_nuclear_aesthetic prompt pf s e none none).visual_parameters.map Prod.fst
        = ["luminous", "morphological", "atmospheric", "temporal"]
     ∧ (enhance_nuclear_aesthetic prompt pf s e none none).modifiers_applied.map Prod.fst
        = ["scale", "environment"])
    ∧ ((enhance_nuclear_aesthetic prompt pf s e (some .modern) (some .clinical)).visual_parameters.map Prod.fst
        = ["luminous", "morphological", "atmospheric", "temporal", "capture", "composition"]
     ∧ (enhance_nuclear_aesthetic prompt pf s e (some .modern) (some .clinical)).modifiers_applied.map Prod.fst
        = ["scale", "environment", "era", "affect"]) :=
  ⟨⟨rfl, rfl⟩, ⟨rfl, rfl⟩⟩

/-- C2: the flat phrase list is built in a fixed order with fixed group
sizes: 3 phrases from the primary record, then 2 from the scale record,
then 1 or 2 from the environment record (the debris phrase appearing only
when `debris_character` is not the literal `"none"`), then 3 from the era
record if era was given, then 2 from the affect record if affect was given. -/
theorem composeAesthetic_phrase_order (prompt : String) (pf : PhaseForm)
    (s : Option Scale) (e : Option Environment) (er : Option Era) (af : Option Affect) :
    (enhance_nuclear_aesthetic prompt pf s e er af).enhanced_prompt_elements
      = primary_elements (intrOf pf) ++ scale_elements (smOf s) ++ env_elements (emOf e)
        ++ era_elements (eraOf er) ++ affect_elements (affOf af)
    ∧ (primary_elements (intrOf pf)).length = 3
    ∧ (scale_elements (smOf s)).length = 2
    ∧ (env_elements (emOf e)).length = (if debrisNotNone (emOf e) then 2 else 1)
    ∧ (era_elements (eraOf er)).length = (match er with | some _ => 3 | none => 0)
    ∧ (affect_elements (affOf af)).length = (match af with | some _ => 2 | none => 0) :=
  ⟨rfl, rfl, scale_elements_len s, env_elements_len e,
   era_elements_len er, affect_elements_len af⟩

/-- C6: the synthesized text begins with the original input text followed by
the separator and appends the first at most 6 phrases of the ordered phrase
list joined by the separator, never more than 6. -/
theorem composeAesthetic_synthesized_prompt (prompt : String) (pf : PhaseForm)
    (s : Option Scale) (e : Option Environment) (er : Option Era) (af : Option Affect) :
    (enhance_nuclear_aesthetic prompt pf s e er af).synthesized_prompt
      = prompt ++ ", " ++ String.intercalate ", "
          ((enhance_nuclear_aesthetic prompt pf s e er af).enhanced_prompt_elements.take 6)
    ∧ ((enhance_nuclear_aesthetic prompt pf s e er af).enhanced_prompt_elements.take 6).length ≤ 6 :=
  ⟨rfl, by simp only [List.length_take]; omega⟩

/-- C9: the phrase list always has at least 6 entries (3 primary, 2 scale,
and at least 1 environment phrase are always produced), so the synthesized
prompt always carries exactly 6 appended phrases. -/
theorem composeAesthetic_at_least_six (prompt : String) (pf : PhaseForm)
    (s : Option Scale) (e : Option Environment) (er : Option Era) (af : Option Affect) :
    6 ≤ (enhance_nuclear_aesthetic prompt pf s e er af).enhanced_prompt_elements.length
    ∧ ((enhance_nuclear_aesthetic prompt pf s e er af).enhanced_prompt_elements.take 6).length = 6 := by
  have hlen : 6 ≤ (enhance_nuclear_aesthetic prompt pf s e er af).enhanced_prompt_elements.length := by
    rw [enhanced_elements_eq]
    have h0 : (primary_elements (intrOf pf)).length = 3 := rfl
    have h1 := scale_elements_len s
    have h2 := env_elements_pos e
    simp only [List.length_append]
    omega
  refine ⟨hlen, ?_⟩
  simp only [List.length_take]
  omega

/-- C10: an explicit `None` for scale or environment yields exactly the
output of the defaulted value: a null scale resolves to the `strategic`
record and a null environment to the `airburst` record. -/
theorem composeAesthetic_null_defaults (prompt : String) (pf : PhaseForm)
    (s : Option Scale) (e : Option Environment) (er : Option Era) (af : Option Affect) :
    enhance_nuclear_aesthetic prompt pf none e er af
      = enhance_nuclear_aesthetic prompt pf (some .strategic) e er af
    ∧ enhance_nuclear_aesthetic prompt pf s none er af
      = enhance_nuclear_aesthetic prompt pf s (some .airburst) er af :=
  ⟨rfl, rfl⟩

/-- C7: every phase form has exactly one record in the intrinsics table,
`get_phase_form_details` returns that non-empty record, and the record
holds exactly the eight intrinsic fields in declaration order. -/
theorem getCategoryDetails_intrinsics_complete (pf : PhaseForm) :
    (get_phase_form_details pf).intrinsic_properties = intrOf pf
    ∧ intrOf pf ≠ []
    ∧ (intrOf pf).map Prod.fst
        = ["luminous_regime", "color_temperature_k", "luminosity", "form",
           "duration_reference", "atmospheric_state", "key_visual", "contrast"]
    ∧ PHASEFORM_INTRINSICS.countP (fun p => p.1 == pf.value) = 1 := by
  cases pf <;> exact ⟨rfl, by decide, by decide, by decide⟩

/-- C4 counterexample: with era `trinity` set and everything else at its
defaults, the era record contributes three phrases (color, grain,
perspective), not a two-phrase contribution: the ten-element phrase list
below ends in three era phrases, where the claim's per-modifier two-phrase
contribution would give nine elements in total. -/
theorem modifier_contribution_counterexample :
    (era_elements (eraOf (some Era.trinity))).length = 3
    ∧ (enhance_nuclear_aesthetic "test" PhaseForm.initiation_radiant_point
        (some Scale.strategic) (some Environment.airburst) (some Era.trinity)
        none).enhanced_prompt_elements
      = ["nuclear explosion, pure white point, corona forming",
         "extreme_overexposure lighting",
         "point_source_expanding morphology",
         "substantial vertical development",
         "landscape_dwarfing scale",
         "atmospheric_only debris",
         "pure_shock_effects atmosphere",
         "sepia_monochrome color",
         "heavy_film_grain",
         "static_distant_tripod perspective"] := by
  constructor
  · decide
  · decide

/-- C4 (amended): for every modifier identifier in every one of the four
dimensions' tables, composing with that single modifier set and all other
modifiers at their defaults (pydantic defaults: strategic scale, airburst
environment, no era, no affect) always succeeds, and the phrase list
includes that modifier's full phrase contribution in place: 2 phrases for
a scale, 1 or 2 for an environment (debris phrase only when
`debris_character` is not `"none"`), 3 for an era, and 2 for an affect. -/
theorem modifier_contribution (prompt : String) (pf : PhaseForm) :
    (∀ s : Scale,
      (enhance_nuclear_aesthetic prompt pf (some s) (some .airburst) none none).enhanced_prompt_elements
        = primary_elements (intrOf pf) ++ scale_elements (smOf (some s))
          ++ env_elements (emOf (some .airburst))
      ∧ (scale_elements (smOf (some s))).length = 2)
    ∧ (∀ e : Environment,
      (enhance_nuclear_aesthetic prompt pf (some .strategic) (some e) none none).enhanced_prompt_elements
        = primary_elements (intrOf pf) ++ scale_elements (smOf (some .strategic))
          ++ env_elements (emOf (some e))
      ∧ (env_elements (emOf (some e))).length
          = (if debrisNotNone (emOf (some e)) then 2 else 1))
    ∧ (∀ er : Era,
      (enhance_nuclear_aesthetic prompt pf (some .strategic) (some .airburst) (some er) none).enhanced_prompt_elements
        = primary_elements (intrOf pf) ++ scale_elements (smOf (some .strategic))
          ++ env_elements (emOf (some .airburst)) ++ era_elements (eraOf (some er))
      ∧ (era_elements (eraOf (some er))).length = 3)
    ∧ (∀ af : Affect,
      (enhance_nuclear_aesthetic prompt pf (some .strategic) (some .airburst) none (some af)).enhanced_prompt_elements
        = primary_elements (intrOf pf) ++ scale_elements (smOf (some .strategic))
          ++ env_elements (emOf (some .airburst)) ++ affect_elements (affOf (some af))
      ∧ (affect_elements (affOf (some af))).length = 2) := by
  have hera : era_elements (eraOf none) = [] := rfl
  have haff : affect_elements (affOf none) = [] := rfl
  refine ⟨fun s => ⟨?_, scale_elements_len (some s)⟩,
          fun e => ⟨?_, env_elements_len (some e)⟩,
          fun er => ⟨?_, era_elements_len_some er⟩,
          fun af => ⟨?_, affect_elements_len_some af⟩⟩
  · rw [enhanced_elements_eq, hera, haff, List.append_nil, List.append_nil]
  · rw [enhanced_elements_eq, hera, haff, List.append_nil, List.append_nil]
  · rw [enhanced_elements_eq, haff, List.append_nil]
  · rw [enhanced_elements_eq, hera]
    simp

/-- The group segment of a namespaced identifier: the part before the dot. -/
def groupSegment (key : String) : String :=
  String.mk (key.data.takeWhile (fun c => c != '.'))

/-- Stated from the spec's words for C8 (the code's behaviour differs):
the returned list contains exactly the identifiers whose group segment
matches the filter case-insensitively, in declaration order. -/
def listCategories_groupSegment_spec (filt : Option String) : List String :=
  phaseFormList.filterMap (fun pf =>
    match filt with
    | none => some pf.value
    | some f =>
      if groupSegment pf.value = String.mk (lowerChars f.data) then some pf.value
      else none)

/-- C8 counterexample: with filter `"fire"` the code keeps every identifier
that merely starts with the filter and returns the three fireball forms,
while no identifier's group segment matches `"fire"`, so the claim's
group-segment semantics would return the empty list. -/
theorem listCategories_filter_counterexample :
    (list_phase_forms (some "fire")).map (fun r => r.phase_form)
      = ["fireball.plasma_core", "fireball.surface_instability", "fireball.expansion_front"]
    ∧ listCategories_groupSegment_spec (some "fire") = []
    ∧ ¬((list_phase_forms (some "fire")).map (fun r => r.phase_form)
          = listCategories_groupSegment_spec (some "fire")) := by
  refine ⟨by decide, by decide, by decide⟩

/-- The filter loop keeps, in order, exactly the phase keys of which the
lower-cased nonempty filter is a prefix. -/
theorem listPhaseFormsOver_filter (l : List PhaseForm) (f : String)
    (hf : f.data.isEmpty = false) :
    (listPhaseFormsOver l (some f)).map (fun r => r.phase_form)
      = (l.map PhaseForm.value).filter (fun k => pfxOf (lowerChars f.data) k.data) := by
  induction l with
  | nil => rfl
  | cons pf t ih =>
    have hkeep : keepPhaseKey (some f) pf.value
        = pfxOf (lowerChars f.data) pf.value.data := by
      simp [keepPhaseKey, hf]
    simp only [listPhaseFormsOver, List.filterMap_cons, List.map_cons, List.filter_cons]
    rw [hkeep]
    cases hpfx : pfxOf (lowerChars f.data) pf.value.data with
    | false => simpa [listPhaseFormsOver] using ih
    | true => simpa [listPhaseFormsOver] using ih

/-- C8 (amended): `listCategories` with filter `"fireball"` returns exactly
the 3 fireball-group identifiers in declaration order; in general a
non-empty filter keeps exactly the identifiers of which the lower-cased
filter is a prefix of the full identifier (not a case-insensitive match of
the group segment), in declaration order. -/
theorem listCategories_filter (f : String) (hf : f.data.isEmpty = false) :
    (list_phase_forms (some "fireball")).map (fun r => r.phase_form)
      = ["fireball.plasma_core", "fireball.surface_instability", "fireball.expansion_front"]
    ∧ (list_phase_forms (some f)).map (fun r => r.phase_form)
        = (phaseFormList.map PhaseForm.value).filter
            (fun k => pfxOf (lowerChars f.data) k.data) :=
  ⟨by decide, listPhaseFormsOver_filter phaseFormList f hf⟩

/-- Witness for C8 (amended) at the concrete filter `"rise"`. -/
theorem listCategories_filter_witness :
    "rise".data.isEmpty = false
    ∧ (list_phase_forms (some "rise")).map (fun r => r.phase_form)
        = (phaseFormList.map PhaseForm.value).filter
            (fun k => pfxOf (lowerChars "rise".data) k.data) :=
  ⟨by decide, (listCategories_filter "rise" (by decide)).2⟩

/-- Inserting a candidate into a list touches no other candidate of any
score class: the subsequence of candidates at each fixed score is
preserved, with the new candidate placed in front of its own class. -/
theorem filter_score_orderedInsert (k : Nat) (x : MatchCandidate)
    (l : List MatchCandidate) :
    (List.orderedInsert rDesc x l).filter (fun c => c.confidence_score == k)
      = if x.confidence_score == k
        then x :: l.filter (fun c => c.confidence_score == k)
        else l.filter (fun c => c.confidence_score == k) := by
  induction l with
  | nil => rw [List.orderedInsert, List.filter_cons]
  | cons y ys ih =>
    rw [List.orderedInsert]
    by_cases h : rDesc x y
    · rw [if_pos h, List.filter_cons, List.filter_cons]
    · rw [if_neg h]
      have hxy : x.confidence_score < y.confidence_score :=
        Nat.lt_of_not_le h
      rw [List.filter_cons, ih, List.filter_cons]
      by_cases hx : (x.confidence_score == k) = true
      · have hk : x.confidence_score = k := by simpa using hx
        have hyk : (y.confidence_score == k) = false := by
          have : y.confidence_score ≠ k := by omega
          simpa using this
        simp [hx, hyk]
      · simp [hx]

/-- The stable descending sort preserves, for every score value, the
original relative order of the candidates having that score. -/
theorem filter_score_insertionSort (k : Nat) (l : List MatchCandidate) :
    (List.insertionSort rDesc l).filter (fun c => c.confidence_score == k)
      = l.filter (fun c => c.confidence_score == k) := by
  induction l with
  | nil => rfl
  | cons x xs ih =>
    rw [List.insertionSort, filter_score_orderedInsert, ih, List.filter_cons]

/-- C3: the matcher lower-cases the text; scores each category as the
count of its keywords found as substrings plus 3 times the count of its
phrases found as substrings; records the matched terms in test order
(keywords before phrases, each in table-declaration order); excludes
every category with score 0; sorts the survivors by score descending with
a stable sort that preserves table-declaration order among equal scores;
and truncates the result to at most 5 candidates. -/
theorem matchDescription_algorithm (description : String) :
    match_description_to_phaseform description
      = (List.insertionSort rDesc (scored_matches (lowerChars description.data))).take 5
    ∧ scored_matches (lowerChars description.data)
        = (keyword_mappings.map (scoreEntry (lowerChars description.data))).filter
            (fun c => 0 < c.confidence_score)
    ∧ (∀ entry : String × List String × List String,
        (scoreEntry (lowerChars description.data) entry).confidence_score
          = (entry.2.1.filter (fun k => hasSub k.data (lowerChars description.data))).length
            + 3 * (entry.2.2.filter (fun p => hasSub p.data (lowerChars description.data))).length
        ∧ (scoreEntry (lowerChars description.data) entry).matched_terms
          = entry.2.1.filter (fun k => hasSub k.data (lowerChars description.data))
            ++ entry.2.2.filter (fun p => hasSub p.data (lowerChars description.data)))
    ∧ (List.insertionSort rDesc (scored_matches (lowerChars description.data))).Sorted rDesc
    ∧ (∀ k : Nat,
        (List.insertionSort rDesc (scored_matches (lowerChars description.data))).filter
            (fun c => c.confidence_score == k)
          = (scored_matches (lowerChars description.data)).filter
              (fun c => c.confidence_score == k))
    ∧ (match_description_to_phaseform description).length ≤ 5 := by
  refine ⟨rfl, rfl, fun entry => ⟨rfl, rfl⟩, List.sorted_insertionSort rDesc _,
    fun k => filter_score_insertionSort k _, ?_⟩
  simp only [match_description_to_phaseform, List.length_take]
  omega

/-- C5: on `"mushroom cloud forming with baroque fractal edges"` the first
candidate is `rise.cauliflower_cap` with confidence at least 8, from the
phrase matches `mushroom cloud` and `fractal edges` (weight 3 each) plus
the keyword matches `baroque` and `fractal` (weight 1 each). -/
theorem matchDescription_mushroom_cloud :
    (match_description_to_phaseform "mushroom cloud forming with baroque fractal edges").head?.map
        (fun c => (c.phase_form, c.confidence_score))
      = some ("rise.cauliflower_cap", 8)
    ∧ 8 ≤ ((match_description_to_phaseform "mushroom cloud forming with baroque fractal edges").head?.map
          (fun c => c.confidence_score)).getD 0
    ∧ (match_description_to_phaseform "mushroom cloud forming with baroque fractal edges").head?.map
        (fun c => c.matched_terms)
      = some ["baroque", "fractal", "mushroom cloud", "fractal edges"] := by
  refine ⟨by decide, by decide, by decide⟩
